import Mathlib

/-!
Verification of the redis-py connection-pool/connection core against its
specification.  The pool, connection, URL-parser and pubsub components are
modelled from the specification (the repository fragment under verification
ships only their tests); the search-field builder is embedded directly from
`redis/commands/search/field.py`.
-/

set_option autoImplicit false

namespace RedisPy

/-- Modelled from the spec: the typed error taxonomy exposed at the caller
boundary (§6): ConnectionError kinds (which include the blocking pool's
timeout-exhaustion error, MaxConnectionsError and BusyLoadingError),
ReadOnlyError, OutOfMemoryError, AuthenticationError, the generic protocol
error carrying the raw message, and the parse-time ConfigError. -/
inductive RedisErr where
  | maxConnectionsError
  | poolTimeoutError
  | busyLoadingError
  | readOnlyError
  | outOfMemoryError
  | authenticationError
  | responseError (msg : List Char)
  | configError (msg : String)
deriving DecidableEq

/-- Modelled from the spec: which error kinds are ConnectionError kinds at the
caller boundary (§6: "ConnectionError (includes the blocking-timeout-exhaustion
case)"; MaxConnectionsError and BusyLoadingError are ConnectionError
subclasses). -/
def RedisErr.isConnectionErrorKind : RedisErr → Bool
  | .maxConnectionsError => true
  | .poolTimeoutError => true
  | .busyLoadingError => true
  | _ => false

/-- Modelled from the spec: the non-blocking pool state (§3, §4.3) — the
ordered *available* list (head = most recently released), the *in-use* list of
connection identities, the optional `max_connections` bound, and a counter
supplying fresh connection identities. -/
structure Pool where
  available : List Nat
  in_use : List Nat
  max_connections : Option Nat
  nextId : Nat
deriving DecidableEq

/-- A fresh pool with the given capacity bound and no connections. -/
def mkPool (maxConn : Option Nat) : Pool := ⟨[], [], maxConn, 0⟩

/-- Total number of connections the pool tracks. -/
def Pool.count (p : Pool) : Nat := p.available.length + p.in_use.length

/-- Whether creating one more connection would exceed `max_connections`. -/
def Pool.atCapacity (p : Pool) : Bool :=
  match p.max_connections with
  | some n => decide (n ≤ p.count)
  | none => false

/-- Modelled from the spec: `get_connection()` (§4.3) — pop from *available*
if nonempty; otherwise create a fresh connection when under capacity;
otherwise fail with MaxConnectionsError.  The returned connection is moved
into *in-use*. -/
def Pool.get_connection (p : Pool) : Except RedisErr (Nat × Pool) :=
  match p.available with
  | c :: rest => .ok (c, { p with available := rest, in_use := c :: p.in_use })
  | [] =>
    if p.atCapacity then .error .maxConnectionsError
    else .ok (p.nextId, { p with in_use := p.nextId :: p.in_use, nextId := p.nextId + 1 })

/-- Modelled from the spec: `release(conn)` (§4.3) — a no-op when the
connection's identity is not in this pool's in-use set; otherwise remove it
from in-use and push it to the head of *available*.  The function is total:
release never fails. -/
def Pool.release (p : Pool) (c : Nat) : Pool :=
  if c ∈ p.in_use then
    { p with in_use := p.in_use.erase c, available := c :: p.available }
  else p

/-- Perform `k` successive `get_connection()` calls with no intervening
release, collecting the returned connection identities. -/
def Pool.getMany (p : Pool) : Nat → Except RedisErr (List Nat × Pool)
  | 0 => .ok ([], p)
  | k + 1 =>
    match p.get_connection with
    | .error e => .error e
    | .ok (c, p') =>
      match p'.getMany k with
      | .error e => .error e
      | .ok (cs, p'') => .ok (c :: cs, p'')

/-- Modelled from the spec: the blocking pool (§4.4) — the §4.3 pool plus a
capacity gate sized to a positive finite `max_connections` and a wait
`timeout`.  A successful acquisition holds one gate permit until release, so
the number of outstanding permits equals the size of the in-use set. -/
structure BlockingPool where
  pool : Pool
  max_connections : Nat
  timeout : ℚ
deriving DecidableEq

/-- A fresh blocking pool with capacity `n` and gate timeout `t`. -/
def mkBlockingPool (n : Nat) (t : ℚ) : BlockingPool := ⟨mkPool (some n), n, t⟩

/-- Modelled from the spec: blocking `get_connection()` (§4.4) under the
model's single-caller semantics (the pool state is the whole world, so no
concurrent release can occur during a wait).  When a gate permit is free the
call delegates to the §4.3 acquire-or-create logic and returns immediately
(waited 0); when the gate is exhausted the caller waits the full `timeout`
and then fails with the pool-timeout connection error.  The second component
is the time spent waiting. -/
def BlockingPool.get_connection (b : BlockingPool) :
    (Except RedisErr (Nat × BlockingPool)) × ℚ :=
  if b.pool.in_use.length < b.max_connections then
    match b.pool.get_connection with
    | .ok (c, p') => (.ok (c, { b with pool := p' }), 0)
    | .error e => (.error e, 0)
  else (.error .poolTimeoutError, b.timeout)

/-- Modelled from the spec: blocking `release` (§4.4) — delegate to §4.3's
release semantics, then return one permit to the gate (implicit here: the
permit count is the in-use size). -/
def BlockingPool.release (b : BlockingPool) (c : Nat) : BlockingPool :=
  { b with pool := b.pool.release c }

/-- Perform `k` successive blocking `get_connection()` calls with no
intervening release, collecting the returned connection identities. -/
def BlockingPool.getMany (b : BlockingPool) : Nat → Except RedisErr (List Nat × BlockingPool)
  | 0 => .ok ([], b)
  | k + 1 =>
    match b.get_connection with
    | (.error e, _) => .error e
    | (.ok (c, b'), _) =>
      match b'.getMany k with
      | .error e => .error e
      | .ok (cs, b'') => .ok (c :: cs, b'')

/-- The pool state reached after `k` fresh creations from an empty pool with
capacity `N`: nothing available, identities `k-1, …, 1, 0` in use. -/
def freshPoolState (N k : Nat) : Pool := ⟨[], (List.range k).reverse, some N, k⟩

theorem freshPoolState_get (N k : Nat) (hk : k < N) :
    (freshPoolState N k).get_connection = .ok (k, freshPoolState N (k + 1)) := by
  have hcap : (freshPoolState N k).atCapacity = false := by
    simp only [freshPoolState, Pool.atCapacity, Pool.count, List.length_reverse,
      List.length_range, List.length_nil, Nat.zero_add, decide_eq_false_iff_not, Nat.not_le]
    exact hk
  simp [freshPoolState, Pool.get_connection] at hcap ⊢
  simp [hcap, List.range_succ]

theorem freshPoolState_getMany (N : Nat) :
    ∀ (k j : Nat), j + k ≤ N →
      (freshPoolState N j).getMany k = .ok (List.range' j k, freshPoolState N (j + k)) := by
  intro k
  induction k with
  | zero => intro j _; simp [Pool.getMany, List.range']
  | succ k ih =>
    intro j hjk
    have hj : j < N := by omega
    have hrec := ih (j + 1) (by omega)
    simp only [Pool.getMany, freshPoolState_get N j hj, hrec, List.range']
    have : j + 1 + k = j + (k + 1) := by omega
    rw [this]

/-- The blocking-pool state reached after `k` fresh acquisitions from an empty
blocking pool of capacity `N` and timeout `t`. -/
def freshBlockingState (N : Nat) (t : ℚ) (k : Nat) : BlockingPool :=
  ⟨freshPoolState N k, N, t⟩

theorem freshBlockingState_get (N : Nat) (t : ℚ) (k : Nat) (hk : k < N) :
    (freshBlockingState N t k).get_connection =
      (.ok (k, freshBlockingState N t (k + 1)), 0) := by
  have hlen : (freshBlockingState N t k).pool.in_use.length < N := by
    simp [freshBlockingState, freshPoolState]
    exact hk
  simp only [BlockingPool.get_connection, freshBlockingState] at hlen ⊢
  rw [if_pos hlen, freshPoolState_get N k hk]

theorem freshBlockingState_getMany (N : Nat) (t : ℚ) :
    ∀ (k j : Nat), j + k ≤ N →
      (freshBlockingState N t j).getMany k =
        .ok (List.range' j k, freshBlockingState N t (j + k)) := by
  intro k
  induction k with
  | zero => intro j _; simp [BlockingPool.getMany, List.range']
  | succ k ih =>
    intro j hjk
    have hj : j < N := by omega
    have hrec := ih (j + 1) (by omega)
    simp only [BlockingPool.getMany, freshBlockingState_get N t j hj, hrec, List.range']
    have : j + 1 + k = j + (k + 1) := by omega
    rw [this]

/-- C1: for every non-blocking pool with `max_connections = N`, after `N`
distinct `get_connection()` calls with no intervening release, the (N+1)-th
`get_connection()` fails immediately with MaxConnectionsError; for the
blocking pool in the same state the (N+1)-th call waits the full `timeout`
and then fails with the pool-timeout error, a ConnectionError kind distinct
from MaxConnectionsError. -/
theorem C1_pool_exhaustion (N : Nat) (t : ℚ) (_hN : 0 < N) :
    (∃ ids p, (mkPool (some N)).getMany N = .ok (ids, p) ∧
      ids.length = N ∧ ids.Nodup ∧
      p.get_connection = .error .maxConnectionsError) ∧
    (∃ ids b, (mkBlockingPool N t).getMany N = .ok (ids, b) ∧
      ids.length = N ∧ ids.Nodup ∧
      b.get_connection = (.error .poolTimeoutError, b.timeout) ∧ b.timeout = t ∧
      RedisErr.poolTimeoutError.isConnectionErrorKind = true ∧
      RedisErr.poolTimeoutError ≠ .maxConnectionsError) := by
  constructor
  · refine ⟨List.range' 0 N, freshPoolState N N, ?_, ?_, ?_, ?_⟩
    · have h := freshPoolState_getMany N N 0 (by omega)
      rw [Nat.zero_add] at h
      exact h
    · simp
    · exact List.nodup_range' 0 N
    · simp [freshPoolState, Pool.get_connection, Pool.atCapacity, Pool.count]
  · refine ⟨List.range' 0 N, freshBlockingState N t N, ?_, ?_, ?_, ?_, rfl, rfl, ?_⟩
    · have h := freshBlockingState_getMany N t N 0 (by omega)
      rw [Nat.zero_add] at h
      exact h
    · simp
    · exact List.nodup_range' 0 N
    · simp [freshBlockingState, freshPoolState, BlockingPool.get_connection]
    · intro h; exact RedisErr.noConfusion h

/-- Closed witness for C1 at `N = 2`, `t = 1/2`. -/
theorem C1_pool_exhaustion_witness :
    0 < 2 ∧
    ((∃ ids p, (mkPool (some 2)).getMany 2 = .ok (ids, p) ∧
      ids.length = 2 ∧ ids.Nodup ∧
      p.get_connection = .error .maxConnectionsError) ∧
    (∃ ids b, (mkBlockingPool 2 (1/2)).getMany 2 = .ok (ids, b) ∧
      ids.length = 2 ∧ ids.Nodup ∧
      b.get_connection = (.error .poolTimeoutError, b.timeout) ∧ b.timeout = 1/2 ∧
      RedisErr.poolTimeoutError.isConnectionErrorKind = true ∧
      RedisErr.poolTimeoutError ≠ .maxConnectionsError)) :=
  ⟨by decide, C1_pool_exhaustion 2 (1/2) (by decide)⟩

/-- C2: for every pool `P` and connection identity `c` not in `P`'s in-use
set, `P.release c` is a no-op: the pool state (in particular the available
list's size and contents) is unchanged, and release never fails (it is a
total function into `Pool`). -/
theorem C2_release_unowned_noop (p : Pool) (c : Nat) (h : c ∉ p.in_use) :
    p.release c = p ∧ (p.release c).available = p.available ∧
    (p.release c).available.length = p.available.length := by
  have : p.release c = p := by simp [Pool.release, h]
  exact ⟨this, by rw [this], by rw [this]⟩

/-- Closed witness for C2: releasing identity 9 to a pool that owns only 7. -/
theorem C2_release_unowned_noop_witness :
    (9 : Nat) ∉ (⟨[5], [7], none, 8⟩ : Pool).in_use ∧
    ((⟨[5], [7], none, 8⟩ : Pool).release 9 = ⟨[5], [7], none, 8⟩ ∧
     ((⟨[5], [7], none, 8⟩ : Pool).release 9).available = [5] ∧
     ((⟨[5], [7], none, 8⟩ : Pool).release 9).available.length = ([5] : List Nat).length) :=
  ⟨by decide, C2_release_unowned_noop ⟨[5], [7], none, 8⟩ 9 (by decide)⟩

/-- C6: for every pool holding exactly one connection, `release(c)` followed
by `get_connection()` returns the identical connection identity `c`, in both
the non-blocking and the blocking pool (and restores the original pool
state). -/
theorem C6_release_reacquire_identity (p : Pool) (b : BlockingPool) (c d : Nat)
    (hA : p.available = []) (hU : p.in_use = [c])
    (hbA : b.pool.available = []) (hbU : b.pool.in_use = [d])
    (hbM : 0 < b.max_connections) :
    (p.release c).get_connection = .ok (c, p) ∧
    (b.release d).get_connection = (.ok (d, b), 0) := by
  obtain ⟨av, iu, mx, ni⟩ := p
  obtain ⟨⟨bav, biu, bmx, bni⟩, bm, bt⟩ := b
  simp only at hA hU hbA hbU hbM
  subst hA hU hbA hbU
  constructor
  · simp [Pool.release, Pool.get_connection]
  · simp [BlockingPool.release, Pool.release, BlockingPool.get_connection, hbM,
      Pool.get_connection]

/-- Closed witness for C6: a one-connection non-blocking pool and a
one-connection blocking pool both hand the released connection back. -/
theorem C6_release_reacquire_identity_witness :
    (⟨[], [3], some 1, 1⟩ : Pool).available = [] ∧
    (⟨[], [3], some 1, 1⟩ : Pool).in_use = [3] ∧
    (⟨⟨[], [4], some 1, 1⟩, 1, 2⟩ : BlockingPool).pool.available = [] ∧
    (⟨⟨[], [4], some 1, 1⟩, 1, 2⟩ : BlockingPool).pool.in_use = [4] ∧
    0 < (⟨⟨[], [4], some 1, 1⟩, 1, 2⟩ : BlockingPool).max_connections ∧
    (((⟨[], [3], some 1, 1⟩ : Pool).release 3).get_connection =
      .ok (3, (⟨[], [3], some 1, 1⟩ : Pool)) ∧
     ((⟨⟨[], [4], some 1, 1⟩, 1, 2⟩ : BlockingPool).release 4).get_connection =
      (.ok (4, (⟨⟨[], [4], some 1, 1⟩, 1, 2⟩ : BlockingPool)), 0)) :=
  ⟨rfl, rfl, rfl, rfl, by decide,
   C6_release_reacquire_identity ⟨[], [3], some 1, 1⟩ ⟨⟨[], [4], some 1, 1⟩, 1, 2⟩ 3 4
     rfl rfl rfl rfl (by decide)⟩

/-! ### Connection: error classification and health-check clock -/

/-- Server error messages are modelled as character lists. -/
abbrev Msg := List Char

def msgLOADING : Msg := ['L', 'O', 'A', 'D', 'I', 'N', 'G']

def msgREADONLY : Msg := ['R', 'E', 'A', 'D', 'O', 'N', 'L', 'Y']

def msgOOM : Msg := ['O', 'O', 'M']

def msgAUTH : Msg := ['A', 'U', 'T', 'H']

def msgWRONGPASS : Msg := ['W', 'R', 'O', 'N', 'G', 'P', 'A', 'S', 'S']

def msgNoPassword : Msg := ['n', 'o', ' ', 'p', 'a', 's', 's', 'w', 'o', 'r', 'd']

def msgInvalidPassword : Msg :=
  ['i', 'n', 'v', 'a', 'l', 'i', 'd', ' ', 'p', 'a', 's', 's', 'w', 'o', 'r', 'd']

/-- Whether `sub` occurs as a contiguous run inside `l`. -/
def hasSub (sub l : Msg) : Bool := l.tails.any (fun t => sub.isPrefixOf t)

/-- Modelled from the spec: the fixed error-classification table (§4.2) —
`LOADING` prefix → BusyLoadingError, `READONLY` prefix → ReadOnlyError,
`OOM` prefix → OutOfMemoryError, AUTH-with-no-password / `WRONGPASS` /
invalid-password → AuthenticationError, anything else → the generic
protocol error. -/
def classify_error (msg : Msg) : RedisErr :=
  if msgLOADING.isPrefixOf msg then .busyLoadingError
  else if msgREADONLY.isPrefixOf msg then .readOnlyError
  else if msgOOM.isPrefixOf msg then .outOfMemoryError
  else if (hasSub msgAUTH msg && hasSub msgNoPassword msg) || msg == msgWRONGPASS ||
      hasSub msgInvalidPassword msg then .authenticationError
  else .responseError msg

/-- Modelled from the spec: which classified replies are fatal, i.e. force a
disconnect before the error is raised (§4.2: LOADING is the fatal case; the
default for everything else is to keep the connection open). -/
def RedisErr.isFatalReply : RedisErr → Bool
  | .busyLoadingError => true
  | _ => false

/-- Modelled from the spec: the per-connection state the claims need — the
transport-open flag (`sock` absent/present), the health-check interval and
the `next_health_check` deadline (§3, §4.2). -/
structure Conn where
  sock : Bool
  health_check_interval : ℚ
  next_health_check : ℚ
deriving DecidableEq

/-- Modelled from the spec: handling a protocol-level error reply — classify
the message, and close the transport first when the classified error is
fatal (§4.2). -/
def Conn.handle_error_reply (c : Conn) (msg : Msg) : Conn × RedisErr :=
  let e := classify_error msg
  (if e.isFatalReply then { c with sock := false } else c, e)

theorem isPrefixOf_self_append (l r : Msg) : l.isPrefixOf (l ++ r) = true := by
  induction l with
  | nil => simp [List.isPrefixOf]
  | cons a as ih => simp [List.isPrefixOf, ih]

/-- C3: a reply message starting with `LOADING` raises BusyLoadingError with
the connection's transport closed before the error reaches the caller, while
a message starting with `READONLY` raises ReadOnlyError and a message
starting with `OOM` raises OutOfMemoryError, both leaving the transport
open. -/
theorem C3_error_classification (c : Conn) (rest : Msg) (hs : c.sock = true) :
    ((c.handle_error_reply (msgLOADING ++ rest)).2 = .busyLoadingError ∧
     (c.handle_error_reply (msgLOADING ++ rest)).1.sock = false) ∧
    ((c.handle_error_reply (msgREADONLY ++ rest)).2 = .readOnlyError ∧
     (c.handle_error_reply (msgREADONLY ++ rest)).1 = c ∧
     (c.handle_error_reply (msgREADONLY ++ rest)).1.sock = true) ∧
    ((c.handle_error_reply (msgOOM ++ rest)).2 = .outOfMemoryError ∧
     (c.handle_error_reply (msgOOM ++ rest)).1 = c ∧
     (c.handle_error_reply (msgOOM ++ rest)).1.sock = true) := by
  have hload : classify_error (msgLOADING ++ rest) = .busyLoadingError := by
    simp [classify_error, isPrefixOf_self_append]
  have hro : classify_error (msgREADONLY ++ rest) = .readOnlyError := by
    simp [classify_error, isPrefixOf_self_append, msgLOADING, msgREADONLY,
      List.isPrefixOf]
  have hoom : classify_error (msgOOM ++ rest) = .outOfMemoryError := by
    simp [classify_error, isPrefixOf_self_append, msgLOADING, msgREADONLY, msgOOM,
      List.isPrefixOf]
  refine ⟨⟨?_, ?_⟩, ⟨?_, ?_, ?_⟩, ⟨?_, ?_, ?_⟩⟩ <;>
    simp [Conn.handle_error_reply, hload, hro, hoom, RedisErr.isFatalReply, hs]

/-- Closed witness for C3 on an open connection and the messages
`LOADING fake message`, `READONLY fake`, `OOM fake`. -/
theorem C3_error_classification_witness :
    (⟨true, 60, 0⟩ : Conn).sock = true ∧
    ((((⟨true, 60, 0⟩ : Conn).handle_error_reply
        (msgLOADING ++ (' ' :: ['f', 'a', 'k', 'e']))).2 = .busyLoadingError ∧
      (((⟨true, 60, 0⟩ : Conn)).handle_error_reply
        (msgLOADING ++ (' ' :: ['f', 'a', 'k', 'e']))).1.sock = false) ∧
     ((((⟨true, 60, 0⟩ : Conn)).handle_error_reply
        (msgREADONLY ++ (' ' :: ['f', 'a', 'k', 'e']))).2 = .readOnlyError ∧
      (((⟨true, 60, 0⟩ : Conn)).handle_error_reply
        (msgREADONLY ++ (' ' :: ['f', 'a', 'k', 'e']))).1 = ⟨true, 60, 0⟩ ∧
      (((⟨true, 60, 0⟩ : Conn)).handle_error_reply
        (msgREADONLY ++ (' ' :: ['f', 'a', 'k', 'e']))).1.sock = true) ∧
     ((((⟨true, 60, 0⟩ : Conn)).handle_error_reply
        (msgOOM ++ (' ' :: ['f', 'a', 'k', 'e']))).2 = .outOfMemoryError ∧
      (((⟨true, 60, 0⟩ : Conn)).handle_error_reply
        (msgOOM ++ (' ' :: ['f', 'a', 'k', 'e']))).1 = ⟨true, 60, 0⟩ ∧
      (((⟨true, 60, 0⟩ : Conn)).handle_error_reply
        (msgOOM ++ (' ' :: ['f', 'a', 'k', 'e']))).1.sock = true)) :=
  ⟨rfl, C3_error_classification ⟨true, 60, 0⟩ (' ' :: ['f', 'a', 'k', 'e']) rfl⟩

/-- A command written to the transport: its name, its arguments and the
`check_health` flag it was sent with. -/
structure SentCmd where
  name : String
  args : List String
  check_health : Bool
deriving DecidableEq

/-- Modelled from the spec: the health-check-due test — the interval is
nonzero and `now ≥ next_health_check` (§4.2; a zero/unset interval disables
health checks). -/
def Conn.healthCheckDue (c : Conn) (now : ℚ) : Bool :=
  decide (0 < c.health_check_interval) && decide (c.next_health_check ≤ now)

/-- Modelled from the spec: `send_command(name, *args, check_health)` (§4.2) —
when `check_health` is true and the deadline is due, a PING (itself sent with
`check_health=False`) is transmitted and consumed before the requested
command and `next_health_check` is advanced to `now + interval`; otherwise
exactly the requested command is written.  The second component lists the
commands written, in order. -/
def Conn.send_command (c : Conn) (now : ℚ) (name : String) (args : List String)
    (check_health : Bool) : Conn × List SentCmd :=
  if check_health && c.healthCheckDue now then
    ({ c with next_health_check := now + c.health_check_interval },
     [⟨"PING", [], false⟩, ⟨name, args, check_health⟩])
  else (c, [⟨name, args, check_health⟩])

/-- C4: for every connection with a nonzero health-check interval, a
`send_command` with `check_health=true` at a due deadline writes exactly one
PING (with `check_health=false`) before the requested command and advances
`next_health_check` to `now + interval`, so that at any observation instant
`nowObs` within `eps` after `now` the deadline satisfies
`interval > next_health_check − nowObs > interval − eps`; when the deadline
is not due, no PING is injected and the connection state is unchanged. -/
theorem C4_health_check_piggyback (c : Conn) (now nowObs eps : ℚ)
    (name : String) (args : List String)
    (hi : 0 < c.health_check_interval) :
    (c.next_health_check ≤ now →
      (c.send_command now name args true).2 =
        [⟨"PING", [], false⟩, ⟨name, args, true⟩] ∧
      (c.send_command now name args true).1.next_health_check =
        now + c.health_check_interval ∧
      (now < nowObs → nowObs < now + eps →
        c.health_check_interval >
          (c.send_command now name args true).1.next_health_check - nowObs ∧
        (c.send_command now name args true).1.next_health_check - nowObs >
          c.health_check_interval - eps)) ∧
    (now < c.next_health_check →
      (c.send_command now name args true).2 = [⟨name, args, true⟩] ∧
      (c.send_command now name args true).1 = c) := by
  constructor
  · intro hdue
    have hcond : (true && c.healthCheckDue now) = true := by
      simp [Conn.healthCheckDue, hi, hdue]
    refine ⟨?_, ?_, ?_⟩
    · simp [Conn.send_command, hcond]
    · simp [Conn.send_command, hcond]
    · intro h1 h2
      constructor
      · simp only [Conn.send_command, hcond, if_pos]
        linarith
      · simp only [Conn.send_command, hcond, if_pos]
        linarith
  · intro hnot
    have hcond : (true && c.healthCheckDue now) = false := by
      simp [Conn.healthCheckDue]
      intro _
      linarith
    constructor
    · simp [Conn.send_command, hcond]
    · simp [Conn.send_command, hcond]

/-- Closed witness for C4: interval 60, deadline 5, command sent at
`now = 10` and observed at `10 + 1/2` with tolerance `eps = 1`. -/
theorem C4_health_check_piggyback_witness :
    0 < (⟨true, 60, 5⟩ : Conn).health_check_interval ∧
    (((⟨true, 60, 5⟩ : Conn).next_health_check ≤ 10 →
      ((⟨true, 60, 5⟩ : Conn).send_command 10 "GET" ["foo"] true).2 =
        [⟨"PING", [], false⟩, ⟨"GET", ["foo"], true⟩] ∧
      ((⟨true, 60, 5⟩ : Conn).send_command 10 "GET" ["foo"] true).1.next_health_check =
        10 + (⟨true, 60, 5⟩ : Conn).health_check_interval ∧
      ((10 : ℚ) < 21/2 → (21/2 : ℚ) < 10 + 1 →
        (⟨true, 60, 5⟩ : Conn).health_check_interval >
          ((⟨true, 60, 5⟩ : Conn).send_command 10 "GET" ["foo"] true).1.next_health_check
            - 21/2 ∧
        ((⟨true, 60, 5⟩ : Conn).send_command 10 "GET" ["foo"] true).1.next_health_check
            - 21/2 >
          (⟨true, 60, 5⟩ : Conn).health_check_interval - 1)) ∧
    ((10 : ℚ) < (⟨true, 60, 5⟩ : Conn).next_health_check →
      ((⟨true, 60, 5⟩ : Conn).send_command 10 "GET" ["foo"] true).2 =
        [⟨"GET", ["foo"], true⟩] ∧
      ((⟨true, 60, 5⟩ : Conn).send_command 10 "GET" ["foo"] true).1 = ⟨true, 60, 5⟩)) :=
  ⟨by norm_num, C4_health_check_piggyback ⟨true, 60, 5⟩ 10 (21/2) 1 "GET" ["foo"]
    (by norm_num)⟩

/-! ### PubSub health-check overlay -/

/-- Modelled from the spec: the session-specific PING payload token that lets
the overlay's health-check PONG be told apart from an ordinary PING/PONG
(§4.5). -/
def health_check_message : String := "redis-py-health-check"

/-- Modelled from the spec: a pubsub session — the `subscribed` flag and the
borrowed connection it delegates all transport to (§4.5). -/
structure PubSub where
  subscribed : Bool
  conn : Conn
deriving DecidableEq

/-- Modelled from the spec: `subscribe` (§4.5) — before the first subscribe
confirmation the command goes through the normal `send_command` path with
`check_health=true`; once `subscribed` is true it is sent with
`check_health=false`. -/
def PubSub.subscribe (p : PubSub) (now : ℚ) (channel : String) :
    PubSub × List SentCmd :=
  let r := p.conn.send_command now "SUBSCRIBE" [channel] (!p.subscribed)
  ({ p with conn := r.1 }, r.2)

/-- Modelled from the spec: the overlay's own health check, run by a poll —
when the deadline is due it issues a PING carrying the session token (with
`check_health=false`) and advances the deadline; otherwise it does
nothing (§4.5). -/
def PubSub.check_health (p : PubSub) (now : ℚ) : PubSub × List SentCmd :=
  if p.conn.healthCheckDue now then
    ({ p with conn :=
        { p.conn with next_health_check := now + p.conn.health_check_interval } },
     [⟨"PING", [health_check_message], false⟩])
  else (p, [])

/-- Modelled from the spec: a poll (`get_message`) on a subscribed session —
run the overlay's health check, then return whatever message is available
(§4.5).  The components are the state after the poll, the commands the poll
issued, and the message it returned. -/
def PubSub.get_message (p : PubSub) (now : ℚ) (available : Option String) :
    PubSub × List SentCmd × Option String :=
  let r := p.check_health now
  (r.1, r.2, available)

/-- C5: on a session that has read at least one subscribe confirmation
(`subscribed = true`), every subsequent subscribe command is sent with
`check_health=false` and injects no PING; a poll that finds the deadline due
issues a PING carrying the session token and advances the deadline; a poll
that is not due and finds no message returns no message, issues no command
and leaves the state (hence the deadline) unchanged. -/
theorem C5_pubsub_health_overlay (p : PubSub) (now : ℚ) (channel : String)
    (hs : p.subscribed = true) (hi : 0 < p.conn.health_check_interval) :
    (p.subscribe now channel = (p, [⟨"SUBSCRIBE", [channel], false⟩])) ∧
    (p.conn.next_health_check ≤ now →
      p.get_message now none =
        ({ p with conn :=
            { p.conn with next_health_check := now + p.conn.health_check_interval } },
         [⟨"PING", [health_check_message], false⟩], none)) ∧
    (now < p.conn.next_health_check →
      p.get_message now none = (p, [], none)) := by
  obtain ⟨ps, pc⟩ := p
  simp only at hs hi ⊢
  subst hs
  refine ⟨?_, ?_, ?_⟩
  · simp [PubSub.subscribe, Conn.send_command]
  · intro hdue
    have hc : pc.healthCheckDue now = true := by
      simp [Conn.healthCheckDue, hi, hdue]
    simp [PubSub.get_message, PubSub.check_health, hc]
  · intro hnot
    have hc : pc.healthCheckDue now = false := by
      simp [Conn.healthCheckDue]
      intro _
      linarith
    simp [PubSub.get_message, PubSub.check_health, hc]

/-- Closed witness for C5: a subscribed session with interval 60 and
deadline 0, subscribing to `bar` and polling at `now = 10`. -/
theorem C5_pubsub_health_overlay_witness :
    (⟨true, ⟨true, 60, 0⟩⟩ : PubSub).subscribed = true ∧
    0 < (⟨true, ⟨true, 60, 0⟩⟩ : PubSub).conn.health_check_interval ∧
    (((⟨true, ⟨true, 60, 0⟩⟩ : PubSub).subscribe 10 "bar" =
        (⟨true, ⟨true, 60, 0⟩⟩, [⟨"SUBSCRIBE", ["bar"], false⟩])) ∧
     ((⟨true, ⟨true, 60, 0⟩⟩ : PubSub).conn.next_health_check ≤ 10 →
       (⟨true, ⟨true, 60, 0⟩⟩ : PubSub).get_message 10 none =
         (⟨true, ⟨true, 60, 10 + 60⟩⟩,
          [⟨"PING", [health_check_message], false⟩], none)) ∧
     ((10 : ℚ) < (⟨true, ⟨true, 60, 0⟩⟩ : PubSub).conn.next_health_check →
       (⟨true, ⟨true, 60, 0⟩⟩ : PubSub).get_message 10 none =
         (⟨true, ⟨true, 60, 0⟩⟩, [], none))) :=
  ⟨rfl, by norm_num,
   C5_pubsub_health_overlay ⟨true, ⟨true, 60, 0⟩⟩ 10 "bar" rfl (by norm_num)⟩

/-! ### Config parser (URL parsing) -/

/-- Split a character list at every occurrence of `c` (the splitting
character is dropped; `n` separators produce `n + 1` pieces). -/
def splitOnChar (c : Char) : List Char → List (List Char)
  | [] => [[]]
  | a :: rest =>
    let r := splitOnChar c rest
    if a == c then [] :: r
    else
      match r with
      | [] => [[a]]
      | h :: t => (a :: h) :: t

/-- Join pieces back together with the character `c` between them. -/
def joinChar (c : Char) : List (List Char) → List Char
  | [] => []
  | [x] => x
  | x :: xs => x ++ c :: joinChar c xs

/-- Parse a nonempty all-digit character list as a decimal `Nat`. -/
def natDigitsAux (acc : Nat) : List Char → Option Nat
  | [] => some acc
  | c :: rest =>
    if c.isDigit then natDigitsAux (acc * 10 + (c.toNat - 48)) rest else none

/-- `natDigits? l` is the decimal value of `l`, or `none` when `l` is empty
or holds a non-digit. -/
def natDigits? (l : List Char) : Option Nat :=
  match l with
  | [] => none
  | _ => natDigitsAux 0 l

def schemeRedis : List Char := ['r', 'e', 'd', 'i', 's', ':', '/', '/']

def schemeRediss : List Char := ['r', 'e', 'd', 'i', 's', 's', ':', '/', '/']

def schemeUnix : List Char := ['u', 'n', 'i', 'x', ':', '/', '/']

/-- The ConfigError message enumerating the three accepted schemes. -/
def scheme_err_msg : String :=
  "Redis URL must specify one of the following schemes (redis://, rediss://, unix://)"

/-- Modelled from the spec: the parsed connection specification the claims
need — the selected connection class, the host (network schemes) or path
(unix scheme), the resolved database index, and the decoded query pairs
(§4.1). -/
structure UrlResult where
  connection_class : String
  host : List Char
  path : List Char
  db : Option Nat
  query : List (List Char × List Char)
deriving DecidableEq

/-- Modelled from the spec: database index resolution precedence (§4.1),
highest first — explicit `db=` in the query string, then a numeric path
segment, then the caller's `db` override, then unset. -/
def resolve_db (queryDb pathDb override : Option Nat) : Option Nat :=
  match queryDb with
  | some d => some d
  | none =>
    match pathDb with
    | some d => some d
    | none => override

/-- Split `key=value` query pairs out of the query-string part. -/
def parse_query (q : List Char) : List (List Char × List Char) :=
  match q with
  | [] => []
  | _ =>
    (splitOnChar '&' q).map fun kv =>
      match splitOnChar '=' kv with
      | [] => ([], [])
      | [k] => (k, [])
      | k :: vs => (k, joinChar '=' vs)

/-- Split the part after the scheme marker into the main part and the query
string (at the first `?`). -/
def split_query (rest : List Char) : List Char × List Char :=
  match splitOnChar '?' rest with
  | [] => ([], [])
  | [m] => (m, [])
  | m :: qs => (m, joinChar '?' qs)

/-- The `db=` value of a parsed query, when present and numeric. -/
def queryDb? (q : List (List Char × List Char)) : Option Nat :=
  (q.find? (fun kv => kv.1 == ['d', 'b'])).bind fun kv => natDigits? kv.2

/-- Modelled from the spec: parsing the part after `redis://`/`rediss://` —
split off the query string, read the host up to the first `/`, use a numeric
path segment as the path database index, and resolve `db` by the §4.1
precedence. -/
def parse_net (cls : String) (rest : List Char) (override : Option Nat) : UrlResult :=
  let mq := split_query rest
  let q := parse_query mq.2
  match splitOnChar '/' mq.1 with
  | [] => ⟨cls, [], [], resolve_db (queryDb? q) none override, q⟩
  | [h] => ⟨cls, h, [], resolve_db (queryDb? q) none override, q⟩
  | h :: segs =>
    ⟨cls, h, [], resolve_db (queryDb? q) (natDigits? (joinChar '/' segs)) override, q⟩

/-- Modelled from the spec: parsing the part after `unix://` — the main part
is the socket path and `db` can come only from the query string or the
override. -/
def parse_unix (rest : List Char) (override : Option Nat) : UrlResult :=
  let mq := split_query rest
  let q := parse_query mq.2
  ⟨"UnixDomainSocketConnection", [], mq.1, resolve_db (queryDb? q) none override, q⟩

/-- Modelled from the spec: `parse(url, overrides)` (§4.1) — exactly the three
schemes `redis://`, `rediss://` and `unix://` are recognized (selecting the
plain TCP, TLS and unix-socket connection classes respectively); any other
scheme, or a string lacking the `scheme://` delimiter, fails with a
ConfigError whose message enumerates the three accepted schemes. -/
def parse_url (url : List Char) (override : Option Nat) : Except RedisErr UrlResult :=
  if schemeRedis.isPrefixOf url then
    .ok (parse_net "Connection" (url.drop 8) override)
  else if schemeRediss.isPrefixOf url then
    .ok (parse_net "SSLConnection" (url.drop 9) override)
  else if schemeUnix.isPrefixOf url then
    .ok (parse_unix (url.drop 7) override)
  else .error (.configError scheme_err_msg)

/-- The database index `parse_url` resolved, when parsing succeeded. -/
def parsed_db (url : List Char) (override : Option Nat) : Option (Option Nat) :=
  match parse_url url override with
  | .ok r => some r.db
  | .error _ => none

/-- C7: every URL string that does not begin with one of `redis://`,
`rediss://` or `unix://` (an unrecognized scheme, or a missing `scheme://`
delimiter) fails to parse, whatever the caller's db override, with a
ConfigError whose message enumerates exactly the three accepted schemes. -/
theorem C7_invalid_scheme (url : List Char) (override : Option Nat)
    (h1 : schemeRedis.isPrefixOf url = false)
    (h2 : schemeRediss.isPrefixOf url = false)
    (h3 : schemeUnix.isPrefixOf url = false) :
    parse_url url override =
      .error (.configError
        "Redis URL must specify one of the following schemes (redis://, rediss://, unix://)") := by
  simp [parse_url, h1, h2, h3, scheme_err_msg]

/-- Closed witness for C7 on the scheme-less URL `localhost`. -/
theorem C7_invalid_scheme_witness :
    schemeRedis.isPrefixOf "localhost".toList = false ∧
    schemeRediss.isPrefixOf "localhost".toList = false ∧
    schemeUnix.isPrefixOf "localhost".toList = false ∧
    parse_url "localhost".toList none =
      .error (.configError
        "Redis URL must specify one of the following schemes (redis://, rediss://, unix://)") :=
  ⟨by decide, by decide, by decide,
   C7_invalid_scheme "localhost".toList none (by decide) (by decide) (by decide)⟩

/-- C8: the database index follows the precedence query-string `db=` over
numeric path segment over caller override over unset: `resolve_db` picks the
highest-priority value that is set, and on concrete URLs — whatever the
caller's override — `redis://localhost/2?db=3` resolves to db 3,
`redis://localhost/2` resolves to db 2 (the path segment wins over the
override), and `redis://localhost` resolves to the override itself. -/
theorem C8_db_precedence (override pathDb : Option Nat) (q n : Nat) :
    resolve_db (some q) pathDb override = some q ∧
    resolve_db none (some n) override = some n ∧
    resolve_db none none override = override ∧
    parsed_db "redis://localhost/2?db=3".toList override = some (some 3) ∧
    parsed_db "redis://localhost/2".toList override = some (some 2) ∧
    parsed_db "redis://localhost".toList override = some override := by
  refine ⟨rfl, rfl, rfl, ?_, ?_, ?_⟩ <;> rfl

/-- Closed witness for C8 at override `some 1` (the tested configuration:
`from_url(..., db=1)`). -/
theorem C8_db_precedence_witness :
    resolve_db (some 3) (some 2) (some 1) = some 3 ∧
    resolve_db none (some 2) (some 1) = some 2 ∧
    resolve_db none none (some 1) = some 1 ∧
    parsed_db "redis://localhost/2?db=3".toList (some 1) = some (some 3) ∧
    parsed_db "redis://localhost/2".toList (some 1) = some (some 2) ∧
    parsed_db "redis://localhost".toList (some 1) = some (some 1) :=
  C8_db_precedence (some 1) (some 2) 3 2

/-! ### Boolean query-value parsing (`to_bool`) -/

/-- The values `to_bool` can receive: a Python `None`, a string, or an
integer. -/
inductive PyScalar where
  | pynone
  | pystr (s : String)
  | pyint (n : Int)
deriving DecidableEq

/-- ASCII upper-casing, modelling Python's `str.upper()` on the inputs at
hand. -/
def pyUpper (s : String) : String := String.mk (s.data.map Char.toUpper)

/-- The strings whose upper-casing means false. -/
def falseStrings : List String := ["0", "F", "FALSE", "N", "NO"]

/-- Modelled from the spec: the boolean-parsing rule `to_bool` (§4.1) —
`None` and the empty string mean unspecified (`none`); a string whose
upper-casing is one of `0`, `F`, `FALSE`, `N`, `NO` means false; the integer
`0` means false; every other nonzero/non-empty value means true. -/
def to_bool : PyScalar → Option Bool
  | .pynone => none
  | .pystr s =>
    if s = "" then none
    else if pyUpper s ∈ falseStrings then some false
    else some true
  | .pyint n => if n = 0 then some false else some true

/-- C9: `to_bool` maps `None` and `""` to `None`; `0` and the
case-insensitive strings `0`, `f`, `false`, `n`, `no` to `False`; nonzero
integers and the case-insensitive strings `1`, `y`, `yes` to `True`; and
every other non-empty, nonzero value to `True`. -/
theorem C9_to_bool :
    to_bool .pynone = none ∧
    to_bool (.pystr "") = none ∧
    to_bool (.pystr "No") = some false ∧
    to_bool (.pystr "f") = some false ∧
    to_bool (.pystr "False") = some false ∧
    to_bool (.pyint 0) = some false ∧
    to_bool (.pystr "1") = some true ∧
    to_bool (.pystr "y") = some true ∧
    to_bool (.pystr "Yes") = some true ∧
    to_bool (.pyint 1) = some true ∧
    (∀ s : String, pyUpper s ∈ falseStrings → to_bool (.pystr s) = some false) ∧
    (∀ n : Int, n ≠ 0 → to_bool (.pyint n) = some true) ∧
    (∀ s : String, s ≠ "" → pyUpper s ∉ falseStrings → to_bool (.pystr s) = some true) := by
  refine ⟨by decide, by decide, by decide, by decide, by decide, by decide, by decide,
    by decide, by decide, by decide, ?_, ?_, ?_⟩
  · intro s hmem
    have hne : s ≠ "" := by
      intro h
      rw [h] at hmem
      revert hmem
      decide
    simp [to_bool, hne, hmem]
  · intro n hn
    simp [to_bool, hn]
  · intro s hne hnot
    simp [to_bool, hne, hnot]

/-- Closed witness for C9: the general clauses applied at `"F"`, `-2` and
`"banana"`. -/
theorem C9_to_bool_witness :
    (pyUpper "F" ∈ falseStrings ∧ to_bool (.pystr "F") = some false) ∧
    ((-2 : Int) ≠ 0 ∧ to_bool (.pyint (-2)) = some true) ∧
    ("banana" ≠ "" ∧ pyUpper "banana" ∉ falseStrings ∧
      to_bool (.pystr "banana") = some true) :=
  ⟨⟨by decide, (C9_to_bool.2.2.2.2.2.2.2.2.2.2).1 "F" (by decide)⟩,
   ⟨by decide, (C9_to_bool.2.2.2.2.2.2.2.2.2.2).2.1 (-2) (by decide)⟩,
   ⟨by decide, by decide, (C9_to_bool.2.2.2.2.2.2.2.2.2.2).2.2 "banana" (by decide) (by decide)⟩⟩

/-! ### Search field builder (embedded from `redis/commands/search/field.py`) -/

/-- The error `Field.__init__` can raise. -/
inductive FieldInitError where
  | valueError (msg : String)
deriving DecidableEq

/-- The data `Field.__init__` stores on a successfully constructed field
(`name`, `args`, `args_suffix`, `as_name`), embedded from
`redis/commands/search/field.py`. -/
structure FieldData where
  name : String
  args : List String
  args_suffix : List String
  as_name : Option String
deriving DecidableEq

/-- `Field.__init__` from `redis/commands/search/field.py`: build the suffix
token list by appending `SORTABLE`, `NOINDEX`, `INDEXMISSING`, `INDEXEMPTY`
in that order for each set flag, then raise
`ValueError("Non-Sortable non-Indexable fields are ignored")` when
`noIndex` is set without `sortable`. -/
def fieldInit (name : String) (args : List String)
    (sortable noIndex index_missing index_empty : Bool)
    (as_name : Option String) : Except FieldInitError FieldData :=
  let suffix :=
    (if sortable then ["SORTABLE"] else []) ++
    (if noIndex then ["NOINDEX"] else []) ++
    (if index_missing then ["INDEXMISSING"] else []) ++
    (if index_empty then ["INDEXEMPTY"] else [])
  if noIndex && !sortable then
    .error (.valueError "Non-Sortable non-Indexable fields are ignored")
  else .ok ⟨name, args, suffix, as_name⟩

/-- `Field.redis_args` from `redis/commands/search/field.py`: the field name,
then `AS alias` when an alias is set, then the type arguments, then the
suffix tokens. -/
def FieldData.redis_args (f : FieldData) : List String :=
  [f.name] ++ (match f.as_name with | some a => ["AS", a] | none => []) ++
  f.args ++ f.args_suffix

/-- C10: `Field` construction raises ValueError exactly when `noIndex` is
set and `sortable` is not; for every other flag combination construction
succeeds and the suffix tokens appear in `redis_args()` in the fixed order
`SORTABLE`, `NOINDEX`, `INDEXMISSING`, `INDEXEMPTY`, after the name, alias
and type arguments. -/
theorem C10_field_flags (name : String) (args : List String)
    (sortable noIndex index_missing index_empty : Bool) (as_name : Option String) :
    (fieldInit name args sortable noIndex index_missing index_empty as_name =
        .error (.valueError "Non-Sortable non-Indexable fields are ignored") ↔
      (noIndex = true ∧ sortable = false)) ∧
    (¬(noIndex = true ∧ sortable = false) →
      ∃ f, fieldInit name args sortable noIndex index_missing index_empty as_name =
          .ok f ∧
        f.redis_args =
          [name] ++ (match as_name with | some a => ["AS", a] | none => []) ++ args ++
          (([("SORTABLE", sortable), ("NOINDEX", noIndex),
             ("INDEXMISSING", index_missing), ("INDEXEMPTY", index_empty)].filter
            (fun p => p.2)).map (fun p => p.1))) := by
  cases sortable <;> cases noIndex <;> cases index_missing <;> cases index_empty <;>
    simp [fieldInit, FieldData.redis_args]

/-- Closed witness for C10: a sortable, no-index, index-missing text-like
field constructs successfully with suffix order
`SORTABLE NOINDEX INDEXMISSING`. -/
theorem C10_field_flags_witness :
    (fieldInit "title" ["TEXT"] true true true false (some "t") =
        .error (.valueError "Non-Sortable non-Indexable fields are ignored") ↔
      (true = true ∧ true = false)) ∧
    (¬(true = true ∧ true = false) →
      ∃ f, fieldInit "title" ["TEXT"] true true true false (some "t") = .ok f ∧
        f.redis_args =
          ["title"] ++ ["AS", "t"] ++ ["TEXT"] ++
          (([("SORTABLE", true), ("NOINDEX", true),
             ("INDEXMISSING", true), ("INDEXEMPTY", false)].filter
            (fun p => p.2)).map (fun p => p.1))) :=
  C10_field_flags "title" ["TEXT"] true true true false (some "t")

end RedisPy
